import Mathlib

/-!
Verification of the ticket lifecycle, notification, and geospatial
aggregation engine of a citizen issue-reporting service.

The backend request handlers are embedded shallowly: the key-value store
becomes an explicit state record (`KVStore`), each handler becomes a pure
function from request data and oracle values (timestamps, generated ids)
to a result paired with the successor state.  JavaScript numbers carried
by tickets (latitudes, longitudes) are modelled as rationals; the
great-circle distance, which the source computes with transcendental
functions, is modelled over the reals.  JavaScript truthiness tests on
strings are modelled by comparison with the empty string, and on optional
numbers by presence plus non-zero-ness.
-/

namespace Civic

/-- Location payload attached to a ticket.  `lat`/`lng` are optional
because the create handler stores whatever location object the client
sent, without checking these fields. -/
structure Location where
  lat : Option ℚ
  lng : Option ℚ
  address : String
  ward : Option String
  siteCode : String
deriving DecidableEq, Repr

/-- Resolution record attached to a ticket by the status-update handler. -/
structure Resolution where
  notes : String
  proofImageUrl : Option String
  resolvedBy : String
  resolvedAt : String
deriving DecidableEq, Repr

/-- A stored ticket, mirroring the object built by the create handler. -/
structure Ticket where
  id : String
  userId : String
  category : String
  description : String
  location : Option Location
  imageUrl : Option String
  status : String
  createdAt : String
  updatedAt : String
  assignedTo : Option String
  resolution : Option Resolution
  upvotes : Nat
deriving DecidableEq, Repr

/-- A stored user profile (key prefix `user_profile_`). -/
structure Profile where
  id : String
  name : String
  email : String
  aadhaar : String
  role : String
  createdAt : String
deriving DecidableEq, Repr

/-- A notification in a recipient's feed. -/
structure Notification where
  id : String
  type : String
  title : String
  message : String
  ticketId : Option String
  read : Bool
  createdAt : String
deriving DecidableEq, Repr

/-- An upvote presence marker (key `upvote_<ticketId>_<userId>`). -/
structure UpvoteRecord where
  userId : String
  ticketId : String
  createdAt : String
deriving DecidableEq, Repr

/-- The key-value store, split by key prefix.  `tickets` and `profiles`
are kept as lists because the handlers prefix-scan them; the other
groups are only ever accessed by key. -/
structure KVStore where
  tickets : List Ticket
  userTickets : String → List String
  profiles : List Profile
  upvoteRecords : String → String → Option UpvoteRecord
  notifs : String → List Notification

/-- `kv.get('ticket_' + tid)`: first stored ticket with the given id. -/
def lookupTicket (ts : List Ticket) (tid : String) : Option Ticket :=
  ts.find? (fun t => t.id == tid)

/-- `kv.set('ticket_' + t.id, t)`: replace the stored ticket with this id,
or append the ticket when the id is new. -/
def setTicket (t : Ticket) : List Ticket → List Ticket
  | [] => [t]
  | x :: xs => if x.id == t.id then t :: xs else x :: setTicket t xs

/-- Point update of a string-keyed map. -/
def setStrFn {α : Type} (f : String → α) (k : String) (v : α) :
    String → α :=
  fun x => if x = k then v else f x

/-- Point update of the pair-keyed upvote-record map. -/
def setUpvote (f : String → String → Option UpvoteRecord)
    (tid uid : String) (r : UpvoteRecord) :
    String → String → Option UpvoteRecord :=
  fun a b => if a = tid ∧ b = uid then some r else f a b

/-- The notification object built by `createNotification`; its id and
timestamp are oracle inputs. -/
def mkNotif (nid ntype title message : String) (tref : Option String)
    (now : String) : Notification :=
  { id := nid
    type := ntype
    title := title
    message := message
    ticketId := tref
    read := false
    createdAt := now }

/-- `createNotification`: read the recipient's feed, unshift the new
notification, splice the feed down to 50 entries, write it back. -/
def createNotificationS (uid ntype title message : String)
    (tref : Option String) (nid now : String) (s : KVStore) : KVStore :=
  { s with notifs := fun u =>
      if u = uid then
        List.take 50 (mkNotif nid ntype title message tref now :: s.notifs uid)
      else s.notifs u }

/-- JavaScript `String.prototype.replace` with a one-character string
pattern: replace the first occurrence of a dash with a space. -/
def replaceFirstDashAux : List Char → List Char
  | [] => []
  | c :: cs => if c = '-' then ' ' :: cs else c :: replaceFirstDashAux cs

/-- `category.replace('-', ' ')` on a string. -/
def replaceFirstDash (str : String) : String :=
  ⟨replaceFirstDashAux str.data⟩

/-- `location.ward || 'your area'`: the ward, with absent or empty ward
falling back to the default. -/
def wardOrArea (l : Location) : String :=
  match l.ward with
  | none => "your area"
  | some w => if w = "" then "your area" else w

/-- `imageUrl || null`: absent or empty strings become null. -/
def orNull (o : Option String) : Option String :=
  match o with
  | none => none
  | some u => if u = "" then none else some u

/-- `proofImageUrl || null` for a plain string field. -/
def strOrNull (p : String) : Option String :=
  if p = "" then none else some p

/-- Result of a handler: a payload or an HTTP error status with message. -/
inductive HResult (α : Type) where
  | ok : α → HResult α
  | err : Nat → String → HResult α
deriving DecidableEq, Repr

/-- The categories offered by the client UI (`ISSUE_CATEGORIES`). -/
def issueCategories : List String :=
  ["garbage-management", "pothole", "streetlight", "water-supply",
   "drainage", "traffic", "noise-pollution", "other"]

/-- The ticket object built by the create handler. -/
def newTicket (userId category : String) (description : Option String)
    (loc : Location) (imageUrl : Option String) (nowMs : Nat)
    (nowIso : String) : Ticket :=
  { id := "TKT" ++ toString nowMs
    userId := userId
    category := category
    description := description.getD ""
    location := some loc
    imageUrl := orNull imageUrl
    status := "submitted"
    createdAt := nowIso
    updatedAt := nowIso
    assignedTo := none
    resolution := none
    upvotes := 0 }

/-- The message of the `new_ticket` notification sent to authorities. -/
def newTicketMessage (category : String) (loc : Location) : String :=
  "A new " ++ replaceFirstDash category ++ " issue has been reported in "
    ++ wardOrArea loc

/-- The create handler's fan-out: one `new_ticket` notification to every
profile whose role is `authority`. -/
def notifyAuthorities (category : String) (loc : Location)
    (tid nid nowIso : String) (s : KVStore) : KVStore :=
  (s.profiles.filter (fun p => p.role == "authority")).foldl
    (fun st p =>
      createNotificationS p.id "new_ticket" "New Issue Reported"
        (newTicketMessage category loc) (some tid) nid nowIso st) s

/-- `POST /tickets`: validate truthiness of category and location, build
the ticket, persist it, append its id to the reporter's ticket-id list,
then notify all authorities. -/
def createTicket (userId category : String) (description : Option String)
    (location : Option Location) (imageUrl : Option String) (nowMs : Nat)
    (nowIso nid : String) (s : KVStore) : HResult Ticket × KVStore :=
  match location with
  | none => (.err 400 "Category and location are required", s)
  | some loc =>
    if category = "" then (.err 400 "Category and location are required", s)
    else
      let t := newTicket userId category description loc imageUrl nowMs nowIso
      let s1 : KVStore := { s with tickets := setTicket t s.tickets }
      let s2 : KVStore :=
        { s1 with userTickets :=
            setStrFn s1.userTickets userId (s1.userTickets userId ++ [t.id]) }
      (.ok t, notifyAuthorities category loc t.id nid nowIso s2)

/-- The ticket as rewritten by the status-update handler. -/
def updatedTicket (t : Ticket) (actorId status resolution proofImageUrl
    nowIso : String) : Ticket :=
  { t with
    status := status
    updatedAt := nowIso
    assignedTo := some actorId
    resolution :=
      if resolution ≠ "" then
        some { notes := resolution
               proofImageUrl := strOrNull proofImageUrl
               resolvedBy := actorId
               resolvedAt := nowIso }
      else t.resolution }

/-- The status-update handler's notification block: a `ticket_update`
notification to the reporter when the reporter's profile exists, plus a
`resolution` notification when the new status is `completed` and a proof
image was supplied. -/
def statusNotifs (tid status proofImageUrl ownerId nid nowIso : String)
    (s1 : KVStore) : KVStore :=
  match s1.profiles.find? (fun p => p.id == ownerId) with
  | none => s1
  | some _ =>
    let s2 := createNotificationS ownerId "ticket_update"
      "Ticket Status Updated"
      ("Your ticket #" ++ tid ++ " has been " ++
        (if status = "completed" then "resolved" else replaceFirstDash status))
      (some tid) nid nowIso s1
    if status = "completed" ∧ proofImageUrl ≠ "" then
      createNotificationS ownerId "resolution" "Issue Resolved"
        ("Your ticket #" ++ tid ++ " has been completed with proof of resolution")
        (some tid) nid nowIso s2
    else s2

/-- `PUT /tickets/:ticketId/status`: authority check, ticket lookup,
field rewrite, persist, then notify the reporter. -/
def updateStatus (actorId tid status resolution proofImageUrl nowIso
    nid : String) (s : KVStore) : HResult Ticket × KVStore :=
  match s.profiles.find? (fun p => p.id == actorId) with
  | none => (.err 403 "Insufficient permissions", s)
  | some prof =>
    if prof.role ≠ "authority" then (.err 403 "Insufficient permissions", s)
    else
      match lookupTicket s.tickets tid with
      | none => (.err 404 "Ticket not found", s)
      | some t =>
        let t' := updatedTicket t actorId status resolution proofImageUrl nowIso
        let s1 : KVStore := { s with tickets := setTicket t' s.tickets }
        (.ok t', statusNotifs tid status proofImageUrl t.userId nid nowIso s1)

/-- `POST /tickets/:ticketId/upvote`: ticket lookup, duplicate-vote
check, persist the upvote record and the incremented ticket, then notify
the reporter unless the voter is the reporter. -/
def upvoteTicket (voterId tid nowIso nid : String) (s : KVStore) :
    HResult Ticket × KVStore :=
  match lookupTicket s.tickets tid with
  | none => (.err 404 "Ticket not found", s)
  | some t =>
    match s.upvoteRecords tid voterId with
    | some _ => (.err 400 "Already upvoted", s)
    | none =>
      let t' : Ticket := { t with upvotes := t.upvotes + 1 }
      let rec1 : UpvoteRecord :=
        { userId := voterId, ticketId := tid, createdAt := nowIso }
      let s1 : KVStore :=
        { s with
          upvoteRecords := setUpvote s.upvoteRecords tid voterId rec1
          tickets := setTicket t' s.tickets }
      if t.userId ≠ voterId then
        (.ok t', createNotificationS t.userId "ticket_upvote"
          "Your Issue Got Support"
          ("Someone upvoted your ticket #" ++ tid ++ ". Total votes: "
            ++ toString t'.upvotes)
          (some tid) nid nowIso s1)
      else (.ok t', s1)

/-- JavaScript `Math.atan2`, by quadrant case analysis over the reals
(the signed-zero distinctions of IEEE 754 do not arise here). -/
noncomputable def jsAtan2 (y x : ℝ) : ℝ :=
  if 0 < x then Real.arctan (y / x)
  else if x < 0 ∧ 0 ≤ y then Real.arctan (y / x) + Real.pi
  else if x < 0 then Real.arctan (y / x) - Real.pi
  else if 0 < y then Real.pi / 2
  else if y < 0 then -(Real.pi / 2)
  else 0

/-- `calculateDistance`: haversine great-circle distance in kilometers,
Earth radius 6371, inputs in degrees. -/
noncomputable def calculateDistance (lat1 lng1 lat2 lng2 : ℚ) : ℝ :=
  let dLat : ℝ := ((lat2 : ℝ) - (lat1 : ℝ)) * Real.pi / 180
  let dLng : ℝ := ((lng2 : ℝ) - (lng1 : ℝ)) * Real.pi / 180
  let a : ℝ :=
    Real.sin (dLat / 2) * Real.sin (dLat / 2) +
      Real.cos ((lat1 : ℝ) * Real.pi / 180) *
        Real.cos ((lat2 : ℝ) * Real.pi / 180) *
        Real.sin (dLng / 2) * Real.sin (dLng / 2)
  let c : ℝ := 2 * jsAtan2 (Real.sqrt a) (Real.sqrt (1 - a))
  6371 * c

/-- An element of the nearby-tickets response: the ticket spread together
with its computed distance. -/
structure NearbyEntry where
  ticket : Ticket
  distance : ℝ

/-- Comparator used to sort the nearby response ascending by distance. -/
def distLE (a b : NearbyEntry) : Prop :=
  a.distance ≤ b.distance

noncomputable instance : DecidableRel distLE :=
  fun a b => inferInstanceAs (Decidable (a.distance ≤ b.distance))

instance : IsTotal NearbyEntry distLE :=
  ⟨fun a b => le_total a.distance b.distance⟩

instance : IsTrans NearbyEntry distLE :=
  ⟨fun _ _ _ hab hbc => le_trans hab hbc⟩

/-- Body of the nearby handler's scan loop: a ticket contributes an
annotated entry when its location and both coordinates are truthy and
its distance to the query point is within the radius. -/
noncomputable def nearbyFilter (lat lng radius : ℚ) (t : Ticket) :
    Option NearbyEntry :=
  match t.location with
  | none => none
  | some l =>
    match l.lat, l.lng with
    | some la, some lo =>
      if la ≠ 0 ∧ lo ≠ 0 then
        if calculateDistance lat lng la lo ≤ (radius : ℝ) then
          some { ticket := t, distance := calculateDistance lat lng la lo }
        else none
      else none
    | some _, none => none
    | none, _ => none

/-- `GET /tickets/nearby`: linear scan, filter by distance, sort
ascending by distance.  `ts` is the prefix scan of all stored tickets. -/
noncomputable def nearbyTickets (lat lng radius : ℚ) (ts : List Ticket) :
    List NearbyEntry :=
  List.insertionSort distLE (ts.filterMap (nearbyFilter lat lng radius))

/-- `ticket.location?.ward || 'Unknown'` in the heatmap grouping. -/
def wardOf (t : Ticket) : String :=
  match t.location with
  | none => "Unknown"
  | some l =>
    match l.ward with
    | none => "Unknown"
    | some w => if w = "" then "Unknown" else w

/-- Per-ward accumulator of the heatmap grouping loop. -/
structure WardAgg where
  ward : String
  issueCount : Nat
  criticalCount : Nat
  totalUpvotes : Nat
  categories : List (String × Nat)
deriving DecidableEq, Repr

/-- `categories[category] = (categories[category] || 0) + 1` on a
JavaScript object whose keys enumerate in insertion order. -/
def bumpCategory (cats : List (String × Nat)) (c : String) :
    List (String × Nat) :=
  match cats with
  | [] => [(c, 1)]
  | (k, n) :: rest =>
    if k = c then (k, n + 1) :: rest else (k, n) :: bumpCategory rest c

/-- Accumulate one ticket into its ward's aggregate. -/
def accTicket (a : WardAgg) (t : Ticket) : WardAgg :=
  { a with
    issueCount := a.issueCount + 1
    criticalCount := a.criticalCount + (if 15 ≤ t.upvotes then 1 else 0)
    totalUpvotes := a.totalUpvotes + t.upvotes
    categories := bumpCategory a.categories t.category }

/-- The fresh accumulator created when a ward is first seen. -/
def initAgg (w : String) : WardAgg :=
  { ward := w, issueCount := 0, criticalCount := 0, totalUpvotes := 0,
    categories := [] }

/-- Insert one ticket into the ward table, wards kept in first-seen
order as JavaScript object keys are. -/
def insertWard : List WardAgg → String → Ticket → List WardAgg
  | [], w, t => [accTicket (initAgg w) t]
  | a :: rest, w, t =>
    if a.ward = w then accTicket a t :: rest else a :: insertWard rest w t

/-- The heatmap grouping loop over the (already filtered) ticket list. -/
def groupByWard (ts : List Ticket) : List WardAgg :=
  ts.foldl (fun acc t => insertWard acc (wardOf t) t) []

/-- JavaScript `Math.round`: round half toward positive infinity. -/
def mathRound (q : ℚ) : ℤ :=
  ⌊q + 1 / 2⌋

/-- A row of the heatmap response, with the computed fields added. -/
structure HeatEntry where
  ward : String
  issueCount : Nat
  criticalCount : Nat
  totalUpvotes : Nat
  categories : List (String × Nat)
  averageUpvotes : ℤ
  density : String
deriving DecidableEq, Repr

/-- Add `averageUpvotes` and `density` to a ward aggregate. -/
def finalizeAgg (a : WardAgg) : HeatEntry :=
  { ward := a.ward
    issueCount := a.issueCount
    criticalCount := a.criticalCount
    totalUpvotes := a.totalUpvotes
    categories := a.categories
    averageUpvotes :=
      if 0 < a.issueCount then
        mathRound ((a.totalUpvotes : ℚ) / (a.issueCount : ℚ))
      else 0
    density :=
      if 40 < a.issueCount then "critical"
      else if 25 < a.issueCount then "high"
      else if 15 < a.issueCount then "medium"
      else "low" }

/-- `GET /tickets/heatmap`, after its time and ward filters: group the
remaining tickets by ward and add the computed fields. -/
def heatmapData (ts : List Ticket) : List HeatEntry :=
  (groupByWard ts).map finalizeAgg

/-! Concrete sample data used to exercise the handlers. -/

/-- An empty store. -/
def sEmpty : KVStore :=
  { tickets := []
    userTickets := fun _ => []
    profiles := []
    upvoteRecords := fun _ _ => none
    notifs := fun _ => [] }

/-- A well-formed location in ward W1. -/
def sampleLoc : Location :=
  { lat := some 28, lng := some 77, address := "Main St",
    ward := some "W1", siteCode := "DP1" }

/-- A location carrying neither latitude nor longitude. -/
def badLoc : Location :=
  { lat := none, lng := none, address := "", ward := none, siteCode := "" }

/-- A location on the equator: latitude exactly 0. -/
def equatorLoc : Location :=
  { lat := some 0, lng := some 10, address := "", ward := none,
    siteCode := "" }

/-- A submitted ticket from user u1. -/
def tSample : Ticket :=
  { id := "T1", userId := "u1", category := "pothole", description := ""
    location := some sampleLoc, imageUrl := none, status := "submitted"
    createdAt := "t0", updatedAt := "t0", assignedTo := none
    resolution := none, upvotes := 0 }

/-- A stored ticket at the equator. -/
def tEquator : Ticket :=
  { tSample with id := "T2", location := some equatorLoc }

/-- An upvote record of voter u2 on ticket T1. -/
def uvrSample : UpvoteRecord :=
  { userId := "u2", ticketId := "T1", createdAt := "t0" }

/-- An authority profile. -/
def pAuthority : Profile :=
  { id := "a1", name := "Auth", email := "a@x", aadhaar := "111122223333",
    role := "authority", createdAt := "t0" }

/-- A citizen profile for the reporter u1. -/
def pCitizen : Profile :=
  { id := "u1", name := "Cit", email := "c@x", aadhaar := "444455556666",
    role := "citizen", createdAt := "t0" }

/-- Store holding ticket T1 and the u2 upvote record. -/
def sConflict : KVStore :=
  { sEmpty with
    tickets := [tSample]
    upvoteRecords := setUpvote (fun _ _ => none) "T1" "u2" uvrSample }

/-- Store holding ticket T1 and no upvote records. -/
def sTicket : KVStore :=
  { sEmpty with tickets := [tSample] }

/-- Store with one authority and one citizen profile and no tickets. -/
def sProfiles : KVStore :=
  { sEmpty with profiles := [pAuthority, pCitizen] }

/-- Store with ticket T1 whose reporter u1 has a profile. -/
def sTicketOwner : KVStore :=
  { sEmpty with tickets := [tSample], profiles := [pAuthority, pCitizen] }

/-- Store with ticket T1 whose reporter u1 has no profile. -/
def sTicketNoOwner : KVStore :=
  { sEmpty with tickets := [tSample], profiles := [pAuthority] }

/-- A baseline notification used to pre-fill feeds. -/
def nOld : Notification :=
  mkNotif "n0" "new_ticket" "Old" "old entry" none "t0"

/-- Store whose every feed already holds 50 notifications. -/
def sFull : KVStore :=
  { sEmpty with notifs := fun _ => List.replicate 50 nOld }

/-- Two tickets in ward W with 1 and 2 upvotes. -/
def tWardA : Ticket :=
  { tSample with id := "T3", upvotes := 1 }

/-- Second ward-W ticket, 2 upvotes. -/
def tWardB : Ticket :=
  { tSample with id := "T4", upvotes := 2 }

/-! Auxiliary lemmas about the store operations. -/

theorem lookupTicket_id (ts : List Ticket) (tid : String) (t : Ticket)
    (h : lookupTicket ts tid = some t) : t.id = tid := by
  have := List.find?_some h
  simpa using this

theorem lookupTicket_setTicket (t : Ticket) (ts : List Ticket) (tid : String)
    (h : t.id = tid) : lookupTicket (setTicket t ts) tid = some t := by
  induction ts with
  | nil => simp [setTicket, lookupTicket, h]
  | cons x xs ih =>
    by_cases hx : x.id = t.id
    · simp [setTicket, hx, lookupTicket, h]
    · have hb : (x.id == tid) = false := by
        simp only [beq_eq_false_iff_ne, ne_eq, ← h]
        exact hx
      simp only [setTicket, beq_iff_eq, if_neg hx]
      simp only [lookupTicket, List.find?, hb]
      exact ih

theorem cn_notifs (uid ntype title message : String) (tref : Option String)
    (nid now : String) (s : KVStore) (v : String) :
    (createNotificationS uid ntype title message tref nid now s).notifs v =
      if v = uid then
        List.take 50 (mkNotif nid ntype title message tref now :: s.notifs uid)
      else s.notifs v := rfl

theorem cn_tickets (uid ntype title message : String) (tref : Option String)
    (nid now : String) (s : KVStore) :
    (createNotificationS uid ntype title message tref nid now s).tickets =
      s.tickets := rfl

theorem cn_profiles (uid ntype title message : String) (tref : Option String)
    (nid now : String) (s : KVStore) :
    (createNotificationS uid ntype title message tref nid now s).profiles =
      s.profiles := rfl

theorem cn_userTickets (uid ntype title message : String)
    (tref : Option String) (nid now : String) (s : KVStore) :
    (createNotificationS uid ntype title message tref nid now s).userTickets =
      s.userTickets := rfl

theorem cn_upvoteRecords (uid ntype title message : String)
    (tref : Option String) (nid now : String) (s : KVStore) :
    (createNotificationS uid ntype title message tref nid now s).upvoteRecords =
      s.upvoteRecords := rfl

theorem foldNotify_notifs_not_mem (ps : List Profile)
    (ntype title message : String) (tref : Option String)
    (nid now : String) (st : KVStore) (uid : String)
    (h : uid ∉ ps.map Profile.id) :
    (ps.foldl (fun st p =>
        createNotificationS p.id ntype title message tref nid now st)
      st).notifs uid = st.notifs uid := by
  induction ps generalizing st with
  | nil => rfl
  | cons q rest ih =>
    simp only [List.map_cons, List.mem_cons, not_or] at h
    simp only [List.foldl_cons]
    rw [ih _ h.2, cn_notifs, if_neg h.1]

theorem foldNotify_core (ps : List Profile) (ntype title message : String)
    (tref : Option String) (nid now : String) (st : KVStore) :
    (ps.foldl (fun st p =>
        createNotificationS p.id ntype title message tref nid now st)
      st).tickets = st.tickets ∧
    (ps.foldl (fun st p =>
        createNotificationS p.id ntype title message tref nid now st)
      st).userTickets = st.userTickets ∧
    (ps.foldl (fun st p =>
        createNotificationS p.id ntype title message tref nid now st)
      st).profiles = st.profiles ∧
    (ps.foldl (fun st p =>
        createNotificationS p.id ntype title message tref nid now st)
      st).upvoteRecords = st.upvoteRecords := by
  induction ps generalizing st with
  | nil => exact ⟨rfl, rfl, rfl, rfl⟩
  | cons q rest ih =>
    simp only [List.foldl_cons]
    exact ih _

theorem foldNotify_notifs_mem (ps : List Profile)
    (ntype title message : String) (tref : Option String)
    (nid now : String) (st : KVStore) (p : Profile) (hp : p ∈ ps)
    (hnd : (ps.map Profile.id).Nodup) :
    (ps.foldl (fun st p =>
        createNotificationS p.id ntype title message tref nid now st)
      st).notifs p.id =
      List.take 50 (mkNotif nid ntype title message tref now ::
        st.notifs p.id) := by
  induction ps generalizing st with
  | nil => cases hp
  | cons q rest ih =>
    simp only [List.map_cons, List.nodup_cons] at hnd
    simp only [List.foldl_cons]
    rcases List.mem_cons.mp hp with hq | hrest
    · subst hq
      rw [foldNotify_notifs_not_mem rest ntype title message tref nid now _
        p.id hnd.1]
      rw [cn_notifs, if_pos rfl]
    · have hne : p.id ≠ q.id := by
        intro he
        exact hnd.1 (he ▸ List.mem_map_of_mem Profile.id hrest)
      rw [ih _ hrest hnd.2]
      rw [cn_notifs, if_neg hne]

/-! Claim C1. -/

/-- Claim C1 (amended): the upvote handler fails with 404 when the
ticket is absent, and with the duplicate-vote error — returned as HTTP
400, not 409 — when an upvote record for (ticketId, voterId) already
exists; in both cases the store is left unchanged, so in particular the
ticket's upvote count is unchanged. -/
theorem upvote_notFound_and_conflict (voterId tid nowIso nid : String)
    (s : KVStore) :
    (lookupTicket s.tickets tid = none →
      upvoteTicket voterId tid nowIso nid s =
        (.err 404 "Ticket not found", s)) ∧
    (∀ t, lookupTicket s.tickets tid = some t →
      ∀ u, s.upvoteRecords tid voterId = some u →
        upvoteTicket voterId tid nowIso nid s =
          (.err 400 "Already upvoted", s)) := by
  constructor
  · intro h
    simp [upvoteTicket, h]
  · intro t ht u hu
    simp [upvoteTicket, ht, hu]

/-- Witness for C1: a concrete repeated upvote hits the 400 branch with
the state unchanged. -/
theorem upvote_notFound_and_conflict_witness :
    lookupTicket sConflict.tickets "T1" = some tSample ∧
    sConflict.upvoteRecords "T1" "u2" = some uvrSample ∧
    upvoteTicket "u2" "T1" "t1" "n1" sConflict =
      (.err 400 "Already upvoted", sConflict) :=
  ⟨by decide, by decide,
    (upvote_notFound_and_conflict "u2" "T1" "t1" "n1" sConflict).2
      tSample (by decide) uvrSample (by decide)⟩

/-- Counterexample for C1 as stated: the duplicate-upvote failure
carries HTTP status 400, not 409. -/
theorem upvote_conflict_status_counterexample :
    (upvoteTicket "u2" "T1" "t1" "n1" sConflict).1 =
      HResult.err 400 "Already upvoted" ∧ (400 : Nat) ≠ 409 := by
  constructor
  · decide
  · decide

/-! Claim C2. -/

/-- Claim C2: on an existing ticket with no prior upvote record for the
voter, the upvote handler returns the ticket with `upvotes` incremented
by exactly 1, persists the upvote record and the updated ticket, and
prepends an upvote notification carrying the new total to the reporter's
feed if and only if the voter is not the reporter (no other feed is
touched). -/
theorem upvote_success_increments (voterId tid nowIso nid : String)
    (s : KVStore) (t : Ticket)
    (ht : lookupTicket s.tickets tid = some t)
    (hnew : s.upvoteRecords tid voterId = none) :
    (upvoteTicket voterId tid nowIso nid s).1 =
      HResult.ok { t with upvotes := t.upvotes + 1 } ∧
    lookupTicket (upvoteTicket voterId tid nowIso nid s).2.tickets tid =
      some { t with upvotes := t.upvotes + 1 } ∧
    (upvoteTicket voterId tid nowIso nid s).2.upvoteRecords tid voterId =
      some { userId := voterId, ticketId := tid, createdAt := nowIso } ∧
    (voterId ≠ t.userId →
      (upvoteTicket voterId tid nowIso nid s).2.notifs t.userId =
        List.take 50 (mkNotif nid "ticket_upvote" "Your Issue Got Support"
          ("Someone upvoted your ticket #" ++ tid ++ ". Total votes: "
            ++ toString (t.upvotes + 1)) (some tid) nowIso
          :: s.notifs t.userId)) ∧
    (voterId = t.userId →
      ∀ uid, (upvoteTicket voterId tid nowIso nid s).2.notifs uid =
        s.notifs uid) ∧
    (∀ uid, uid ≠ t.userId →
      (upvoteTicket voterId tid nowIso nid s).2.notifs uid =
        s.notifs uid) := by
  have hid : t.id = tid := lookupTicket_id s.tickets tid t ht
  by_cases hvu : t.userId = voterId
  · refine ⟨?_, ?_, ?_, ?_, ?_, ?_⟩
    · simp [upvoteTicket, ht, hnew, hvu]
    · have h2 : (upvoteTicket voterId tid nowIso nid s).2.tickets =
          setTicket { t with upvotes := t.upvotes + 1 } s.tickets := by
        simp [upvoteTicket, ht, hnew, hvu]
      rw [h2]
      exact lookupTicket_setTicket _ s.tickets tid hid
    · simp [upvoteTicket, ht, hnew, hvu, setUpvote]
    · intro hne
      exact absurd hvu.symm hne
    · intro _ uid
      simp [upvoteTicket, ht, hnew, hvu]
    · intro uid _
      simp [upvoteTicket, ht, hnew, hvu]
  · refine ⟨?_, ?_, ?_, ?_, ?_, ?_⟩
    · simp [upvoteTicket, ht, hnew, hvu]
    · have h2 : (upvoteTicket voterId tid nowIso nid s).2.tickets =
          setTicket { t with upvotes := t.upvotes + 1 } s.tickets := by
        simp [upvoteTicket, ht, hnew, hvu, cn_tickets]
      rw [h2]
      exact lookupTicket_setTicket _ s.tickets tid hid
    · simp [upvoteTicket, ht, hnew, hvu, setUpvote, cn_upvoteRecords]
    · intro _
      simp [upvoteTicket, ht, hnew, hvu, cn_notifs]
    · intro heq
      exact absurd heq.symm hvu
    · intro uid hne
      simp [upvoteTicket, ht, hnew, hvu, cn_notifs, hne]

/-- Witness for C2 at a concrete store: voter u2 upvotes T1 (reported
by u1) in a store holding only T1. -/
theorem upvote_success_increments_witness :
    lookupTicket sTicket.tickets "T1" = some tSample ∧
    sTicket.upvoteRecords "T1" "u2" = none ∧
    (upvoteTicket "u2" "T1" "t1" "n1" sTicket).1 =
      HResult.ok { tSample with upvotes := tSample.upvotes + 1 } :=
  ⟨by decide, by decide,
    (upvote_success_increments "u2" "T1" "t1" "n1" sTicket tSample
      (by decide) (by decide)).1⟩

theorem take_fifty_cons {α : Type} (a : α) (l : List α) :
    List.take 50 (a :: l) = a :: List.take 49 l := rfl

theorem take_fortynine_cons {α : Type} (a : α) (l : List α) :
    List.take 49 (a :: l) = a :: List.take 48 l := rfl

theorem take_two_cons_cons {α : Type} (a b : α) (l : List α) :
    List.take 2 (a :: b :: l) = [a, b] := rfl

theorem statusNotifs_tickets (tid status proofImageUrl ownerId nid
    nowIso : String) (s1 : KVStore) :
    (statusNotifs tid status proofImageUrl ownerId nid nowIso s1).tickets =
      s1.tickets := by
  unfold statusNotifs
  cases s1.profiles.find? (fun p => p.id == ownerId) with
  | none => rfl
  | some _ =>
    by_cases h : status = "completed" ∧ proofImageUrl ≠ ""
    · simp [h, cn_tickets]
    · simp [h, cn_tickets]

/-! Claim C5. -/

/-- Claim C5: for an existing ticket and an actor holding the authority
role, the status-update handler — for every requested status and every
resolution-notes value — returns and persists the ticket with `status`
set to the requested value, `updatedAt` set to now and `assignedTo` set
to the actor; and whenever resolution notes are present, that ticket's
resolution record is populated with resolver = actor and resolvedAt =
now, regardless of the requested status value. -/
theorem updateStatus_fields (actorId tid status resolution proofImageUrl
    nowIso nid : String) (s : KVStore) (prof : Profile) (t : Ticket)
    (hprof : s.profiles.find? (fun p => p.id == actorId) = some prof)
    (hrole : prof.role = "authority")
    (ht : lookupTicket s.tickets tid = some t) :
    (updateStatus actorId tid status resolution proofImageUrl nowIso nid
        s).1 =
      HResult.ok (updatedTicket t actorId status resolution proofImageUrl
        nowIso) ∧
    lookupTicket (updateStatus actorId tid status resolution proofImageUrl
        nowIso nid s).2.tickets tid =
      some (updatedTicket t actorId status resolution proofImageUrl
        nowIso) ∧
    (updatedTicket t actorId status resolution proofImageUrl
      nowIso).status = status ∧
    (updatedTicket t actorId status resolution proofImageUrl
      nowIso).updatedAt = nowIso ∧
    (updatedTicket t actorId status resolution proofImageUrl
      nowIso).assignedTo = some actorId ∧
    (resolution ≠ "" →
      (updatedTicket t actorId status resolution proofImageUrl
        nowIso).resolution =
        some { notes := resolution
               proofImageUrl := strOrNull proofImageUrl
               resolvedBy := actorId
               resolvedAt := nowIso }) := by
  have hid : t.id = tid := lookupTicket_id s.tickets tid t ht
  refine ⟨?_, ?_, rfl, rfl, rfl, ?_⟩
  · simp [updateStatus, hprof, hrole, ht]
  · have h2 : (updateStatus actorId tid status resolution proofImageUrl
        nowIso nid s).2.tickets =
        setTicket (updatedTicket t actorId status resolution proofImageUrl
          nowIso) s.tickets := by
      simp only [updateStatus, hprof, ht, hrole, ne_eq,
        not_true_eq_false, if_false, ite_false, not_false_eq_true,
        ite_true, if_true]
      rw [statusNotifs_tickets]
    rw [h2]
    exact lookupTicket_setTicket _ s.tickets tid hid
  · intro hnotes
    simp [updatedTicket, hnotes]

/-- Witness for C5: authority a1 marks T1 in-progress with notes; the
returned ticket carries the requested fields, and — the status not
being terminal — the resolution record is still populated. -/
theorem updateStatus_fields_witness :
    sTicketOwner.profiles.find? (fun p => p.id == "a1") = some pAuthority ∧
    pAuthority.role = "authority" ∧
    lookupTicket sTicketOwner.tickets "T1" = some tSample ∧
    (updateStatus "a1" "T1" "in-progress" "fixed" "" "t9" "n9"
        sTicketOwner).1 =
      HResult.ok (updatedTicket tSample "a1" "in-progress" "fixed" ""
        "t9") ∧
    (updatedTicket tSample "a1" "in-progress" "fixed" "" "t9").resolution =
      some { notes := "fixed"
             proofImageUrl := strOrNull ""
             resolvedBy := "a1"
             resolvedAt := "t9" } :=
  ⟨by decide, by decide, by decide,
    (updateStatus_fields "a1" "T1" "in-progress" "fixed" "" "t9" "n9"
      sTicketOwner pAuthority tSample (by decide) (by decide)
      (by decide)).1,
    (updateStatus_fields "a1" "T1" "in-progress" "fixed" "" "t9" "n9"
      sTicketOwner pAuthority tSample (by decide) (by decide)
      (by decide)).2.2.2.2.2 (by decide)⟩

/-! Claim C6. -/

/-- Claim C6 (amended): provided the reporter has a stored user profile,
a successful status update to `completed` with a proof image leaves the
reporter's feed starting with the `resolution` entry followed by the
`ticket_update` entry (the `ticket_update` notification is created
first, then the `resolution` one is prepended); and when the status is
not `completed` or no proof image is supplied, no `resolution` entry is
added to the reporter's feed. -/
theorem updateStatus_notifications (actorId tid status resolution
    proofImageUrl nowIso nid : String) (s : KVStore) (prof op : Profile)
    (t : Ticket)
    (hprof : s.profiles.find? (fun p => p.id == actorId) = some prof)
    (hrole : prof.role = "authority")
    (ht : lookupTicket s.tickets tid = some t)
    (howner : s.profiles.find? (fun p => p.id == t.userId) = some op) :
    (status = "completed" → proofImageUrl ≠ "" →
      ((updateStatus actorId tid status resolution proofImageUrl nowIso
          nid s).2.notifs t.userId).take 2 =
        [mkNotif nid "resolution" "Issue Resolved"
          ("Your ticket #" ++ tid ++
            " has been completed with proof of resolution")
          (some tid) nowIso,
         mkNotif nid "ticket_update" "Ticket Status Updated"
          ("Your ticket #" ++ tid ++ " has been resolved")
          (some tid) nowIso]) ∧
    (¬ (status = "completed" ∧ proofImageUrl ≠ "") →
      List.countP (fun n => n.type == "resolution")
        ((updateStatus actorId tid status resolution proofImageUrl nowIso
          nid s).2.notifs t.userId) ≤
      List.countP (fun n => n.type == "resolution")
        (s.notifs t.userId)) := by
  have hs2 : (updateStatus actorId tid status resolution proofImageUrl
      nowIso nid s).2 =
      statusNotifs tid status proofImageUrl t.userId nid nowIso
        { s with tickets := setTicket (updatedTicket t actorId status
            resolution proofImageUrl nowIso) s.tickets } := by
    simp [updateStatus, hprof, hrole, ht]
  constructor
  · intro hst hpf
    subst hst
    rw [hs2]
    unfold statusNotifs
    dsimp only
    rw [howner]
    rw [if_pos ⟨rfl, hpf⟩]
    rw [cn_notifs, if_pos rfl]
    rw [cn_notifs, if_pos rfl]
    rw [take_fifty_cons, take_fifty_cons, take_fortynine_cons,
      take_two_cons_cons]
    simp [String.append_assoc]
  · intro hnot
    rw [hs2]
    unfold statusNotifs
    dsimp only
    rw [howner]
    rw [if_neg hnot]
    rw [cn_notifs, if_pos rfl]
    dsimp only
    refine le_trans ((List.take_sublist _ _).countP_le _) ?_
    rw [List.countP_cons_of_neg]
    · simp [mkNotif]

/-- Witness for C6: authority a1 completes T1 with a proof image in a
store where reporter u1 has a profile; the feed starts with the
resolution entry, then the status entry. -/
theorem updateStatus_notifications_witness :
    sTicketOwner.profiles.find? (fun p => p.id == "a1") = some pAuthority ∧
    sTicketOwner.profiles.find? (fun p => p.id == "u1") = some pCitizen ∧
    lookupTicket sTicketOwner.tickets "T1" = some tSample ∧
    (("p.jpg" : String) ≠ "") ∧
    ((updateStatus "a1" "T1" "completed" "fixed" "p.jpg" "t9" "n9"
        sTicketOwner).2.notifs "u1").take 2 =
      [mkNotif "n9" "resolution" "Issue Resolved"
        ("Your ticket #" ++ "T1" ++
          " has been completed with proof of resolution")
        (some "T1") "t9",
       mkNotif "n9" "ticket_update" "Ticket Status Updated"
        ("Your ticket #" ++ "T1" ++ " has been resolved")
        (some "T1") "t9"] :=
  ⟨by decide, by decide, by decide, by decide,
    (updateStatus_notifications "a1" "T1" "completed" "fixed" "p.jpg"
      "t9" "n9" sTicketOwner pAuthority pCitizen tSample (by decide)
      (by decide) (by decide) (by decide)).1 rfl (by decide)⟩

/-- Counterexample for C6 as stated: the same successful completed
update with proof leaves the reporter's feed empty when the reporter has
no stored profile, so the feed need not contain the two entries. -/
theorem updateStatus_no_owner_counterexample :
    (updateStatus "a1" "T1" "completed" "fixed" "p.jpg" "t9" "n9"
        sTicketNoOwner).1 =
      HResult.ok (updatedTicket tSample "a1" "completed" "fixed" "p.jpg"
        "t9") ∧
    (updateStatus "a1" "T1" "completed" "fixed" "p.jpg" "t9" "n9"
        sTicketNoOwner).2.notifs "u1" = [] := by
  constructor
  · decide
  · decide

theorem insertWard_issueCount_pos :
    ∀ (acc : List WardAgg) (w : String) (t : Ticket),
      (∀ a ∈ acc, 0 < a.issueCount) →
      ∀ a ∈ insertWard acc w t, 0 < a.issueCount := by
  intro acc
  induction acc with
  | nil =>
    intro w t _ a ha
    simp only [insertWard, List.mem_singleton] at ha
    subst ha
    simp [accTicket, initAgg]
  | cons b rest ih =>
    intro w t h a ha
    simp only [insertWard] at ha
    by_cases hb : b.ward = w
    · rw [if_pos hb] at ha
      rcases List.mem_cons.mp ha with h1 | h2
      · subst h1
        simp [accTicket]
      · exact h a (List.mem_cons_of_mem _ h2)
    · rw [if_neg hb] at ha
      rcases List.mem_cons.mp ha with h1 | h2
      · subst h1
        exact h a (List.mem_cons_self _ _)
      · exact ih w t (fun x hx => h x (List.mem_cons_of_mem _ hx)) a h2

theorem groupByWard_issueCount_pos (ts : List Ticket) :
    ∀ a ∈ groupByWard ts, 0 < a.issueCount := by
  suffices h : ∀ (acc : List WardAgg), (∀ a ∈ acc, 0 < a.issueCount) →
      ∀ a ∈ ts.foldl (fun acc t => insertWard acc (wardOf t) t) acc,
        0 < a.issueCount by
    exact h [] (by simp)
  induction ts with
  | nil =>
    intro acc hacc
    simpa using hacc
  | cons t rest ih =>
    intro acc hacc
    simp only [List.foldl_cons]
    exact ih _ (insertWard_issueCount_pos acc (wardOf t) t hacc)

theorem nearbyFilter_eq_some (lat lng radius : ℚ) (t : Ticket)
    (e : NearbyEntry) :
    nearbyFilter lat lng radius t = some e ↔
      ∃ l la lo, t.location = some l ∧ l.lat = some la ∧
        l.lng = some lo ∧ la ≠ 0 ∧ lo ≠ 0 ∧
        calculateDistance lat lng la lo ≤ (radius : ℝ) ∧
        e = { ticket := t
              distance := calculateDistance lat lng la lo } := by
  unfold nearbyFilter
  rcases hl : t.location with _ | l
  · simp
  · dsimp only
    rcases hla : l.lat with _ | la
    · simp [hla]
    · rcases hlo : l.lng with _ | lo
      · simp [hla, hlo]
      · dsimp only
        by_cases hz : la ≠ 0 ∧ lo ≠ 0
        · by_cases hd : calculateDistance lat lng la lo ≤ (radius : ℝ)
          · rw [if_pos hz, if_pos hd]
            simp [hla, hlo, hz.1, hz.2, hd, eq_comm]
          · rw [if_pos hz, if_neg hd]
            simp [hla, hlo, hd]
        · rw [if_neg hz]
          rcases not_and_or.mp hz with hz1 | hz2
          · simp [hla, hlo, not_not.mp hz1]
          · simp [hla, hlo, not_not.mp hz2]

/-! Claim C7. -/

/-- Claim C7 (amended): the nearby query returns, sorted ascending by
distance, exactly those stored tickets that carry a location with
truthy (present and non-zero) latitude and longitude and whose haversine
distance (Earth radius 6371 km) to the query point is within the
radius, each annotated with that computed distance.  Stored tickets
whose location is absent or whose latitude or longitude is absent or 0
are excluded even when within the radius. -/
theorem nearbyTickets_spec (lat lng radius : ℚ) (ts : List Ticket) :
    List.Sorted distLE (nearbyTickets lat lng radius ts) ∧
    ∀ e : NearbyEntry, e ∈ nearbyTickets lat lng radius ts ↔
      ∃ t ∈ ts, ∃ l la lo, t.location = some l ∧ l.lat = some la ∧
        l.lng = some lo ∧ la ≠ 0 ∧ lo ≠ 0 ∧
        calculateDistance lat lng la lo ≤ (radius : ℝ) ∧
        e = { ticket := t
              distance := calculateDistance lat lng la lo } := by
  constructor
  · exact List.sorted_insertionSort distLE _
  · intro e
    rw [nearbyTickets, List.mem_insertionSort, List.mem_filterMap]
    constructor
    · rintro ⟨t, ht, hf⟩
      obtain ⟨l, la, lo, h1, h2, h3, h4, h5, h6, h7⟩ :=
        (nearbyFilter_eq_some lat lng radius t e).mp hf
      exact ⟨t, ht, l, la, lo, h1, h2, h3, h4, h5, h6, h7⟩
    · rintro ⟨t, ht, l, la, lo, h1, h2, h3, h4, h5, h6, h7⟩
      exact ⟨t, ht, (nearbyFilter_eq_some lat lng radius t e).mpr
        ⟨l, la, lo, h1, h2, h3, h4, h5, h6, h7⟩⟩

/-- Counterexample for C7 as stated: the equator ticket T2 sits at
haversine distance 0 ≤ 5 from the query point (0, 10), yet the nearby
query on a store holding exactly it returns the empty list, because the
truthiness presence check drops latitude 0. -/
theorem nearbyTickets_equator_counterexample :
    calculateDistance 0 10 0 10 ≤ ((5 : ℚ) : ℝ) ∧
    nearbyTickets 0 10 5 [tEquator] = [] := by
  have hd : calculateDistance 0 10 0 10 = 0 := by
    unfold calculateDistance jsAtan2
    norm_num [Real.sin_zero, Real.cos_zero, Real.sqrt_zero,
      Real.sqrt_one, Real.arctan_zero]
  constructor
  · rw [hd]
    norm_num
  · unfold nearbyTickets
    rw [show List.filterMap (nearbyFilter 0 10 5) [tEquator] = [] from ?_]
    · simp [List.insertionSort]
    · simp [nearbyFilter, tEquator, tSample, equatorLoc]

/-! Claim C10. -/

/-- Claim C10: a stored ticket whose location is absent, or whose
latitude or longitude is absent or equal to 0 (the JavaScript truthiness
presence check), never appears in the nearby response, whatever the
query point and radius. -/
theorem nearby_excludes_untruthy_locations (lat lng radius : ℚ)
    (ts : List Ticket) (t : Ticket) (hts : t ∈ ts)
    (hbad : t.location = none ∨ ∃ l, t.location = some l ∧
      (l.lat = none ∨ l.lat = some 0 ∨ l.lng = none ∨ l.lng = some 0)) :
    ∀ e ∈ nearbyTickets lat lng radius ts, e.ticket ≠ t := by
  intro e he heq
  rw [nearbyTickets, List.mem_insertionSort, List.mem_filterMap] at he
  obtain ⟨t', ht', hf⟩ := he
  obtain ⟨l, la, lo, h1, h2, h3, h4, h5, _, h7⟩ :=
    (nearbyFilter_eq_some lat lng radius t' e).mp hf
  subst h7
  have htt : t' = t := heq
  subst htt
  rcases hbad with hb | ⟨l', hb1, hb2⟩
  · rw [hb] at h1
    exact Option.noConfusion h1
  · rw [hb1] at h1
    obtain rfl : l' = l := by
      injection h1
    rcases hb2 with hx | hx | hx | hx
    · rw [hx] at h2
      exact Option.noConfusion h2
    · rw [hx] at h2
      injection h2 with h2'
      exact h4 h2'.symm
    · rw [hx] at h3
      exact Option.noConfusion h3
    · rw [hx] at h3
      injection h3 with h3'
      exact h5 h3'.symm

/-- Witness for C10: the equator ticket is excluded from a concrete
query. -/
theorem nearby_excludes_untruthy_locations_witness :
    tEquator ∈ [tEquator] ∧
    (tEquator.location = none ∨ ∃ l, tEquator.location = some l ∧
      (l.lat = none ∨ l.lat = some 0 ∨ l.lng = none ∨
        l.lng = some 0)) ∧
    ∀ e ∈ nearbyTickets 1 2 5 [tEquator], e.ticket ≠ tEquator :=
  ⟨List.mem_singleton.mpr rfl,
    Or.inr ⟨equatorLoc, rfl, Or.inr (Or.inl rfl)⟩,
    nearby_excludes_untruthy_locations 1 2 5 [tEquator] tEquator
      (List.mem_singleton.mpr rfl)
      (Or.inr ⟨equatorLoc, rfl, Or.inr (Or.inl rfl)⟩)⟩

/-! Claim C8. -/

/-- Claim C8 (amended): every ward aggregate produced by the heatmap has
a positive issue count, and its average-upvotes field equals the total
upvotes divided by the issue count rounded half-up (JavaScript
`Math.round`), not floored. -/
theorem heatmap_average_rounds (ts : List Ticket) (e : HeatEntry)
    (he : e ∈ heatmapData ts) :
    0 < e.issueCount ∧
    e.averageUpvotes =
      mathRound ((e.totalUpvotes : ℚ) / (e.issueCount : ℚ)) := by
  obtain ⟨a, ha, rfl⟩ := List.mem_map.mp he
  have hpos := groupByWard_issueCount_pos ts a ha
  constructor
  · simpa [finalizeAgg] using hpos
  · simp [finalizeAgg, hpos]

/-- Witness for C8 on the single-ticket store: the produced aggregate
has count 1 and rounded average 1. -/
theorem heatmap_average_rounds_witness :
    finalizeAgg (accTicket (initAgg "W1") tWardA) ∈ heatmapData [tWardA] ∧
    (0 < (finalizeAgg (accTicket (initAgg "W1") tWardA)).issueCount ∧
      (finalizeAgg (accTicket (initAgg "W1") tWardA)).averageUpvotes =
        mathRound
          (((finalizeAgg (accTicket (initAgg "W1") tWardA)).totalUpvotes :
              ℚ) /
            ((finalizeAgg (accTicket (initAgg "W1") tWardA)).issueCount :
              ℚ))) :=
  ⟨List.mem_singleton.mpr rfl,
    heatmap_average_rounds [tWardA] _ (List.mem_singleton.mpr rfl)⟩

/-- Counterexample for C8 as stated: a ward with tickets of 1 and 2
upvotes yields average 2 = round(3 ÷ 2), whereas floor(3 ÷ 2) = 1. -/
theorem heatmap_average_floor_counterexample :
    (heatmapData [tWardA, tWardB]).map
        (fun e => (e.totalUpvotes, e.issueCount, e.averageUpvotes)) =
      [(3, 2, 2)] ∧
    ⌊(3 : ℚ) / 2⌋ ≠ (2 : ℤ) := by
  constructor
  · have h1 : heatmapData [tWardA, tWardB] =
        [finalizeAgg
          { ward := "W1"
            issueCount := 2
            criticalCount := 0
            totalUpvotes := 3
            categories := [("pothole", 2)] }] := rfl
    rw [h1]
    simp only [List.map_cons, List.map_nil, finalizeAgg, mathRound]
    norm_num
  · rw [show ⌊(3 : ℚ) / 2⌋ = 1 by norm_num]
    decide

/-! Claim C9. -/

/-- Claim C9: `createNotification` prepends the new notification to the
recipient's feed and truncates to 50 entries, so the resulting feed has
the new entry at its head, never exceeds length 50, and a call on a
50-entry feed evicts exactly the oldest (last) entry. -/
theorem createNotification_caps_feed (uid ntype title message : String)
    (tref : Option String) (nid now : String) (s : KVStore) :
    ((createNotificationS uid ntype title message tref nid now s).notifs
        uid).length ≤ 50 ∧
    ((createNotificationS uid ntype title message tref nid now s).notifs
        uid).head? = some (mkNotif nid ntype title message tref now) ∧
    ((s.notifs uid).length = 50 →
      (createNotificationS uid ntype title message tref nid now s).notifs
          uid =
        mkNotif nid ntype title message tref now ::
          (s.notifs uid).dropLast) := by
  have hfeed : (createNotificationS uid ntype title message tref nid now
      s).notifs uid =
      List.take 50 (mkNotif nid ntype title message tref now ::
        s.notifs uid) := by
    simp [cn_notifs]
  refine ⟨?_, ?_, ?_⟩
  · rw [hfeed]
    exact List.length_take_le 50 _
  · rw [hfeed]
    have h50 : (50 : Nat) = 49 + 1 := rfl
    rw [h50, List.take_succ_cons]
    rfl
  · intro hlen
    rw [hfeed]
    have h50 : (50 : Nat) = 49 + 1 := rfl
    rw [h50, List.take_succ_cons]
    congr 1
    rw [List.dropLast_eq_take, hlen]

/-! Claim C3. -/

/-- Claim C3: a valid submission yields a ticket with the generated id
(fresh when no stored ticket already carries it), status `submitted` and
0 upvotes; the ticket is persisted, its id is appended to the reporter's
ticket-id list, and exactly one `new_ticket` notification is prepended
to the feed of every profile whose role is `authority` (all other feeds
are untouched). -/
theorem create_success (userId category : String)
    (description : Option String) (loc : Location)
    (imageUrl : Option String) (nowMs : Nat) (nowIso nid : String)
    (s : KVStore)
    (hcat : category ≠ "")
    (hfresh : lookupTicket s.tickets ("TKT" ++ toString nowMs) = none)
    (hnd : ((s.profiles.filter (fun p => p.role == "authority")).map
      Profile.id).Nodup) :
    (createTicket userId category description (some loc) imageUrl nowMs
        nowIso nid s).1 =
      HResult.ok (newTicket userId category description loc imageUrl
        nowMs nowIso) ∧
    (newTicket userId category description loc imageUrl nowMs
      nowIso).status = "submitted" ∧
    (newTicket userId category description loc imageUrl nowMs
      nowIso).upvotes = 0 ∧
    (∀ t0 ∈ s.tickets, t0.id ≠
      (newTicket userId category description loc imageUrl nowMs
        nowIso).id) ∧
    lookupTicket (createTicket userId category description (some loc)
        imageUrl nowMs nowIso nid s).2.tickets
      (newTicket userId category description loc imageUrl nowMs
        nowIso).id =
      some (newTicket userId category description loc imageUrl nowMs
        nowIso) ∧
    (createTicket userId category description (some loc) imageUrl nowMs
        nowIso nid s).2.userTickets userId =
      s.userTickets userId ++
        [(newTicket userId category description loc imageUrl nowMs
          nowIso).id] ∧
    (∀ p ∈ s.profiles, p.role = "authority" →
      (createTicket userId category description (some loc) imageUrl nowMs
          nowIso nid s).2.notifs p.id =
        List.take 50 (mkNotif nid "new_ticket" "New Issue Reported"
          (newTicketMessage category loc)
          (some (newTicket userId category description loc imageUrl nowMs
            nowIso).id) nowIso :: s.notifs p.id)) ∧
    (∀ uid, uid ∉ (s.profiles.filter (fun p =>
        p.role == "authority")).map Profile.id →
      (createTicket userId category description (some loc) imageUrl nowMs
          nowIso nid s).2.notifs uid = s.notifs uid) := by
  have hstate : (createTicket userId category description (some loc)
      imageUrl nowMs nowIso nid s).2 =
      notifyAuthorities category loc
        (newTicket userId category description loc imageUrl nowMs
          nowIso).id nid nowIso
        { s with
          tickets := setTicket (newTicket userId category description loc
            imageUrl nowMs nowIso) s.tickets
          userTickets := setStrFn s.userTickets userId
            (s.userTickets userId ++
              [(newTicket userId category description loc imageUrl nowMs
                nowIso).id]) } := by
    simp [createTicket, hcat]
  refine ⟨by simp [createTicket, hcat], rfl, rfl, ?_, ?_, ?_, ?_, ?_⟩
  · have hfr : ∀ t0 ∈ s.tickets, ¬ t0.id = ("TKT" ++ toString nowMs) := by
      simpa [lookupTicket, List.find?_eq_none] using hfresh
    intro t0 h0
    exact hfr t0 h0
  · rw [hstate]
    unfold notifyAuthorities
    dsimp only
    rw [(foldNotify_core _ _ _ _ _ _ _ _).1]
    exact lookupTicket_setTicket _ s.tickets _ rfl
  · rw [hstate]
    unfold notifyAuthorities
    dsimp only
    rw [(foldNotify_core _ _ _ _ _ _ _ _).2.1]
    simp [setStrFn]
  · intro p hp hrole
    have hpf : p ∈ s.profiles.filter (fun p => p.role == "authority") := by
      rw [List.mem_filter]
      exact ⟨hp, by simp [hrole]⟩
    rw [hstate]
    unfold notifyAuthorities
    dsimp only
    rw [foldNotify_notifs_mem _ _ _ _ _ _ _ _ p hpf hnd]
  · intro uid huid
    rw [hstate]
    unfold notifyAuthorities
    dsimp only
    rw [foldNotify_notifs_not_mem _ _ _ _ _ _ _ _ uid huid]

/-- Witness for C3 at a concrete store with one authority and one
citizen profile. -/
theorem create_success_witness :
    ("pothole" : String) ≠ "" ∧
    lookupTicket sProfiles.tickets ("TKT" ++ toString 7) = none ∧
    ((sProfiles.profiles.filter (fun p =>
      p.role == "authority")).map Profile.id).Nodup ∧
    (createTicket "u9" "pothole" none (some sampleLoc) none 7 "t7" "n7"
        sProfiles).1 =
      HResult.ok (newTicket "u9" "pothole" none sampleLoc none 7 "t7") :=
  ⟨by decide, by decide, by decide,
    (create_success "u9" "pothole" none sampleLoc none 7 "t7" "n7"
      sProfiles (by decide) (by decide) (by decide)).1⟩

/-! Claim C4. -/

/-- Claim C4 (amended): the create handler rejects with a 400 validation
error, mutating nothing, exactly when the category is absent/empty or
the location object is absent; it does not check the category against
the known enum values and does not check that the location carries
latitude or longitude. -/
theorem create_validation (userId category : String)
    (description : Option String) (location : Option Location)
    (imageUrl : Option String) (nowMs : Nat) (nowIso nid : String)
    (s : KVStore) :
    (category = "" ∨ location = none →
      createTicket userId category description location imageUrl nowMs
          nowIso nid s =
        (.err 400 "Category and location are required", s)) ∧
    (category ≠ "" → ∀ loc, location = some loc →
      (createTicket userId category description location imageUrl nowMs
          nowIso nid s).1 =
        HResult.ok (newTicket userId category description loc imageUrl
          nowMs nowIso)) := by
  constructor
  · rintro (hc | hl)
    · cases location with
      | none => simp [createTicket]
      | some loc => simp [createTicket, hc]
    · subst hl
      simp [createTicket]
  · intro hc loc hl
    subst hl
    simp [createTicket, hc]

/-- Counterexample for C4 as stated: a submission with a category that
is not a known enum value and a location carrying neither latitude nor
longitude succeeds instead of failing validation. -/
theorem create_validation_counterexample :
    ("bogus" ∉ issueCategories) ∧ badLoc.lat = none ∧ badLoc.lng = none ∧
    (createTicket "u1" "bogus" none (some badLoc) none 5 "t5" "n5"
        sEmpty).1 =
      HResult.ok (newTicket "u1" "bogus" none badLoc none 5 "t5") := by
  refine ⟨by decide, rfl, rfl, by decide⟩

/-- Witness for C4: an absent category is rejected with no mutation. -/
theorem create_validation_witness :
    (("" : String) = "" ∨ (some badLoc : Option Location) = none) ∧
    createTicket "u1" "" none (some badLoc) none 5 "t5" "n5" sEmpty =
      (.err 400 "Category and location are required", sEmpty) :=
  ⟨Or.inl rfl,
    (create_validation "u1" "" none (some badLoc) none 5 "t5" "n5"
      sEmpty).1 (Or.inl rfl)⟩

/-- Witness for C9: on a feed already holding 50 entries, the call
evicts the oldest entry. -/
theorem createNotification_caps_feed_witness :
    (sFull.notifs "r").length = 50 ∧
    (createNotificationS "r" "ticket_update" "Ticket Status Updated" "m"
        none "n2" "t2" sFull).notifs "r" =
      mkNotif "n2" "ticket_update" "Ticket Status Updated" "m" none "t2" ::
        (sFull.notifs "r").dropLast :=
  ⟨by simp [sFull, sEmpty],
    (createNotification_caps_feed "r" "ticket_update"
      "Ticket Status Updated" "m" none "n2" "t2" sFull).2.2
      (by simp [sFull, sEmpty])⟩

end Civic
